import Mathlib

/-!
Verification of the weather-statistics analyzer
(`weather_analysis_simple.py` / `weather_analysis.py`) against its
natural-language specification.

The analyzer's data is a list of loaded CSV rows; every query method is a
pure function of that list plus its arguments.  Numeric cell values are
modelled as exact rationals; Python's float `x ** 0.5` becomes `Real.sqrt`,
and Python's `round(x, n)` becomes exact round-half-to-even at `n` decimal
digits.  Exceptions (`KeyError`, `statistics.StatisticsError`, `TypeError`)
become an `Except` error type.
-/

set_option autoImplicit false
set_option linter.unusedVariables false

/-- Round-half-to-even of `x` to an integer — the rounding mode of Python's
built-in `round` — over any linearly ordered field with a floor. -/
def roundHE {α : Type} [LinearOrderedField α] [FloorRing α] (x : α) : ℤ :=
  if x - ⌊x⌋ < 1 / 2 then ⌊x⌋
  else if 1 / 2 < x - ⌊x⌋ then ⌊x⌋ + 1
  else if 2 ∣ ⌊x⌋ then ⌊x⌋ else ⌊x⌋ + 1

/-- Python `round(x, n)`: round-half-to-even at `n` decimal digits. -/
def pyRound {α : Type} [LinearOrderedField α] [FloorRing α] (n : ℕ) (x : α) : α :=
  ((roundHE (x * 10 ^ n) : ℤ) : α) / 10 ^ n

/-- One weather observation as loaded by `SimpleWeatherAnalyzer.load_data`:
the six CSV fields plus the derived `month` (from the date string).  The
three measurement fields are numeric (exact rationals in the model). -/
structure Record where
  city : String
  date : String
  temperature : ℚ
  precipitation : ℚ
  humidity : ℚ
  weather_condition : String
  month : ℤ
deriving DecidableEq, Repr

/-- A value stored in one loaded row dictionary: numeric or string. -/
inductive PyValue
  | num (q : ℚ)
  | str (s : String)
deriving DecidableEq, Repr

/-- `row[column]` on a loaded row: `some` for the seven stored keys, `none`
(Python `KeyError`) for any other key. -/
def getValue (r : Record) (column : String) : Option PyValue :=
  if column = "city" then some (.str r.city)
  else if column = "date" then some (.str r.date)
  else if column = "temperature" then some (.num r.temperature)
  else if column = "precipitation" then some (.num r.precipitation)
  else if column = "humidity" then some (.num r.humidity)
  else if column = "weather_condition" then some (.str r.weather_condition)
  else if column = "month" then some (.num (r.month : ℚ))
  else none

/-- Numeric coercion of a cell value; `none` marks the `TypeError` Python's
`statistics` functions raise on non-numeric data. -/
def PyValue.toNum : PyValue → Option ℚ
  | .num q => some q
  | .str _ => none

/-- The exceptions the analyzer methods can raise: `KeyError` from a missing
dictionary key, `statistics.StatisticsError` from an aggregate over no data,
`TypeError` from numeric aggregation over strings. -/
inductive PyError
  | keyError
  | statisticsError
  | typeError
deriving DecidableEq, Repr

/-- `statistics.mean` of a nonempty list (callers guard the empty case). -/
def listMean (l : List ℚ) : ℚ := l.sum / l.length

/-- Python `max` of a nonempty list. -/
def listMax : List ℚ → ℚ
  | [] => 0
  | x :: xs => xs.foldl max x

/-- Python `min` of a nonempty list. -/
def listMin : List ℚ → ℚ
  | [] => 0
  | x :: xs => xs.foldl min x

/-- `statistics.median`: the middle of the sorted values, or the mean of the
two middle ones for even length (`insertionSort` models Python `sorted`). -/
def listMedian (l : List ℚ) : ℚ :=
  let s := l.insertionSort (· ≤ ·)
  let n := l.length
  if n % 2 = 1 then s.getD (n / 2) 0
  else (s.getD (n / 2 - 1) 0 + s.getD (n / 2) 0) / 2

/-- `statistics.variance`: sample variance `Σ (x − x̄)² / (n − 1)`. -/
def sampleVar (l : List ℚ) : ℚ :=
  (l.map (fun x => (x - listMean l) ^ 2)).sum / ((l.length : ℚ) - 1)

/-- The six entries built by `SimpleWeatherAnalyzer.get_basic_stats`
(平均 / 中央値 / 最大値 / 最小値 / 標準偏差 / 分散), each rounded to two
decimal places as in the source.  The standard deviation is real-valued
(it is a square root). -/
structure BasicStats where
  mean : ℚ
  median : ℚ
  max : ℚ
  min : ℚ
  stdev : ℝ
  variance : ℚ

/-- `SimpleWeatherAnalyzer.get_basic_stats`: look every row's `column` cell
up (`KeyError` if absent), feed the value list to the `statistics`
aggregates (`StatisticsError` on an empty table, `TypeError` on a
non-numeric column), guard stdev/variance by `len(values) > 1`, and round
every entry to two decimals. -/
noncomputable def get_basic_stats (data : List Record) (column : String) :
    Except PyError BasicStats :=
  match data.mapM (fun r => getValue r column) with
  | none => .error .keyError
  | some vals =>
    if vals.isEmpty then .error .statisticsError
    else
      match vals.mapM PyValue.toNum with
      | none => .error .typeError
      | some nums =>
        .ok { mean := pyRound 2 (listMean nums)
              median := pyRound 2 (listMedian nums)
              max := pyRound 2 (listMax nums)
              min := pyRound 2 (listMin nums)
              stdev := pyRound 2 (if 1 < nums.length then Real.sqrt ((sampleVar nums : ℚ) : ℝ) else 0)
              variance := pyRound 2 (if 1 < nums.length then sampleVar nums else 0) }

/-- The key sequence of a Python dict built by inserting the elements of a
list in order: each distinct element once, at its first occurrence. -/
def firstSeen : List String → List String
  | [] => []
  | x :: xs => x :: firstSeen (xs.filter (fun y => decide (y ≠ x)))
termination_by l => l.length
decreasing_by
  simp only [List.length_cons]
  exact Nat.lt_succ_of_le (List.length_filter_le _ _)

/-- The four entries (平均 / 最高 / 最低 / 標準偏差) built per city by
`SimpleWeatherAnalyzer.compare_cities`, each rounded to two decimals. -/
structure CityStats where
  mean : ℚ
  max : ℚ
  min : ℚ
  stdev : ℝ

/-- `SimpleWeatherAnalyzer.compare_cities`: group the rows' `column` cells by
`row['city']` with a `defaultdict` (so keys appear in first-seen order), then
compute mean / max / min / sample stdev (0 for a one-value group) per group,
each rounded to two decimals.  A bad column raises `KeyError` while grouping;
string-valued columns raise `TypeError` inside `statistics.mean`. -/
noncomputable def compare_cities (data : List Record) (column : String) :
    Except PyError (List (String × CityStats)) :=
  (firstSeen (data.map (fun r => r.city))).mapM (fun city =>
    match ((data.filter (fun r => r.city == city)).map (fun r => getValue r column)).mapM id with
    | none => .error .keyError
    | some vals =>
      match vals.mapM PyValue.toNum with
      | none => .error .typeError
      | some nums =>
        .ok (city, { mean := pyRound 2 (listMean nums)
                     max := pyRound 2 (listMax nums)
                     min := pyRound 2 (listMin nums)
                     stdev := pyRound 2 (if 1 < nums.length then Real.sqrt ((sampleVar nums : ℚ) : ℝ) else 0) }))

/-- The fixed season → months dictionary of `seasonal_analysis`, in its
insertion order. -/
def seasons : List (String × List ℤ) :=
  [("春", [3, 4, 5]), ("夏", [6, 7, 8]), ("秋", [9, 10, 11]), ("冬", [12, 1, 2])]

/-- `SimpleWeatherAnalyzer.seasonal_analysis`: for each of the four seasons,
collect `row[column]` over rows matching the city whose month is in the
season's list (cell lookup happens only for matching rows), and store the
rounded mean —  or `0.0` when the season matched no rows. -/
def seasonal_analysis (data : List Record) (city : String) (column : String) :
    Except PyError (List (String × ℚ)) :=
  seasons.mapM (fun sm =>
    match ((data.filter (fun r => r.city == city && sm.2.contains r.month)).map (fun r => getValue r column)).mapM id with
    | none => .error .keyError
    | some vals =>
      if vals.isEmpty then .ok (sm.1, (0 : ℚ))
      else
        match vals.mapM PyValue.toNum with
        | none => .error .typeError
        | some nums => .ok (sm.1, pyRound 2 (listMean nums)))

/-- `SimpleWeatherAnalyzer.calculate_correlation`: Pearson coefficient with an
explicit zero check on the two sum-of-squares terms — when either is zero the
function returns the bare number `0`, otherwise `numerator / (d1 * d2) ** 0.5`.
Both columns are looked up first (`KeyError`), then `statistics.mean` of each
(`StatisticsError` on an empty table, `TypeError` on a string column). -/
noncomputable def calculate_correlation (data : List Record) (column1 column2 : String) :
    Except PyError ℝ :=
  match data.mapM (fun r => getValue r column1) with
  | none => .error .keyError
  | some vals1 =>
    match data.mapM (fun r => getValue r column2) with
    | none => .error .keyError
    | some vals2 =>
      if vals1.isEmpty then .error .statisticsError
      else
        match vals1.mapM PyValue.toNum with
        | none => .error .typeError
        | some nums1 =>
          if vals2.isEmpty then .error .statisticsError
          else
            match vals2.mapM PyValue.toNum with
            | none => .error .typeError
            | some nums2 =>
              let mean1 := listMean nums1
              let mean2 := listMean nums2
              let numerator := ((nums1.zip nums2).map (fun p => (p.1 - mean1) * (p.2 - mean2))).sum
              let denominator1 := (nums1.map (fun x => (x - mean1) ^ 2)).sum
              let denominator2 := (nums2.map (fun y => (y - mean2) ^ 2)).sum
              if denominator1 = 0 ∨ denominator2 = 0 then .ok 0
              else .ok ((numerator : ℝ) / Real.sqrt (((denominator1 * denominator2 : ℚ) : ℝ)))

/-- The label returned for a strong positive correlation. -/
def strongPosMsg : String := "強い正の相関（片方が大きいと、もう片方も大きくなる傾向）"

/-- The label returned for a moderate positive correlation. -/
def moderatePosMsg : String := "中程度の正の相関（ある程度連動している）"

/-- The label returned for a weak correlation. -/
def weakMsg : String := "弱い相関（あまり関係がない）"

/-- The label returned for a moderate negative correlation. -/
def moderateNegMsg : String := "中程度の負の相関（片方が大きいと、もう片方は小さくなる傾向）"

/-- The label returned for a strong negative correlation. -/
def strongNegMsg : String := "強い負の相関（片方が大きいと、もう片方は確実に小さくなる）"

/-- `SimpleWeatherAnalyzer._interpret_correlation` (identical in both
analyzer variants): a five-way cascade of strict `>` comparisons. -/
noncomputable def interpret_correlation (corr_value : ℝ) : String :=
  if corr_value > 7 / 10 then strongPosMsg
  else if corr_value > 3 / 10 then moderatePosMsg
  else if corr_value > -(3 / 10) then weakMsg
  else if corr_value > -(7 / 10) then moderateNegMsg
  else strongNegMsg

/-- The strength category a returned label string expresses: labels opening
with 強い are "strong", with 中程度 "moderate", with 弱い "weak". -/
def strengthOf (s : String) : String :=
  if s = strongPosMsg ∨ s = strongNegMsg then "strong"
  else if s = moderatePosMsg ∨ s = moderateNegMsg then "moderate"
  else "weak"

/-- One entry of the dictionary built by `find_correlations`: the rounded
coefficient (stored via `str(round(corr, 3))` in the source — the numeric
content is kept here) and the label from `_interpret_correlation`. -/
structure CorrelationEntry where
  coefficient : ℝ
  explanation : String

/-- `SimpleWeatherAnalyzer.find_correlations`: temperature/humidity and then
temperature/precipitation correlations, each reported as the coefficient
rounded to three decimals plus its interpretation label. -/
noncomputable def find_correlations (data : List Record) :
    Except PyError (List (String × CorrelationEntry)) := do
  let tempHumidity ← calculate_correlation data "temperature" "humidity"
  let tempPrecip ← calculate_correlation data "temperature" "precipitation"
  return [("気温と湿度", ⟨pyRound 3 tempHumidity, interpret_correlation tempHumidity⟩),
          ("気温と降水量", ⟨pyRound 3 tempPrecip, interpret_correlation tempPrecip⟩)]

/-- One entry of the dictionary built by `weather_probability`: the count and
the proportion `count / total` (stored rounded to three decimals, with the
percent form rounded to one decimal — the numeric contents are kept). -/
structure ProbEntry where
  count : ℕ
  probability : ℚ
  percent : ℚ
deriving DecidableEq, Repr

/-- `SimpleWeatherAnalyzer.weather_probability`: count each weather condition
among the rows matching the city (dict insertion keeps first-seen key order)
and report count and proportion per condition.  A city with no rows yields an
empty dictionary — the loop body never runs, so no error is raised. -/
def weather_probability (data : List Record) (city : String) :
    List (String × ProbEntry) :=
  let city_weather := (data.filter (fun r => r.city == city)).map (fun r => r.weather_condition)
  let total := city_weather.length
  (firstSeen city_weather).map (fun w =>
    let count := (city_weather.filter (fun x => x == w)).length
    (w, { count := count
          probability := pyRound 3 ((count : ℚ) / (total : ℚ))
          percent := pyRound 1 ((count : ℚ) / (total : ℚ) * 100) }))

/-- The data content of the narrative string built by `generate_story_data`:
the chosen row's measurements, the printed deviation
`round(temp - city_avg, 1)`, and the label from `_analyze_monthly_feature`.
(The surrounding story text is pure formatting of these fields.) -/
structure StoryFacts where
  temperature : ℚ
  precipitation : ℚ
  humidity : ℚ
  weather_condition : String
  deviation : ℚ
  monthlyFeature : String
deriving DecidableEq, Repr

/-- The result of `generate_story_data`: either the "data not found" message
string — an ordinary return value, not an exception — or the story built
from the first matching row. -/
inductive StoryData
  | notFound (msg : String)
  | story (f : StoryFacts)
deriving DecidableEq, Repr

/-- `SimpleWeatherAnalyzer._analyze_monthly_feature`: compares the chosen
row's temperature against the city's all-time mean ± 5. -/
def analyze_monthly_feature (city : String) (month : ℤ) (temp : ℚ) (city_avg : ℚ) : String :=
  if temp > city_avg + 5 then "年間で特に暖かい月"
  else if temp < city_avg - 5 then "年間で特に寒い月"
  else "年間平均に近い気温の月"

/-- `SimpleWeatherAnalyzer.generate_story_data`: filter rows matching
`(city, month)`; with no match return the not-found message string, otherwise
build the story from the first matching row and the city's all-time mean
temperature (nonempty because that row itself matches the city). -/
def generate_story_data (data : List Record) (city : String) (month : ℤ) : StoryData :=
  match data.filter (fun r => r.city == city && r.month == month) with
  | [] => .notFound (city ++ "の" ++ toString month ++ "月のデータが見つかりません。")
  | row :: _ =>
    let city_temps := (data.filter (fun r => r.city == city)).map (fun r => r.temperature)
    let city_avg := listMean city_temps
    .story { temperature := row.temperature
             precipitation := row.precipitation
             humidity := row.humidity
             weather_condition := row.weather_condition
             deviation := pyRound 1 (row.temperature - city_avg)
             monthlyFeature := analyze_monthly_feature city month row.temperature city_avg }

/-- Modelled from pandas semantics for the second analyzer variant: the group
keys produced by `WeatherDataAnalyzer.compare_cities`.
`self.data.groupby('city')` uses pandas' default `sort=True`, so the
resulting index holds the distinct city keys sorted by key, not in
first-occurrence order. -/
def compare_cities_pandas_keys (data : List Record) : List String :=
  (firstSeen (data.map (fun r => r.city))).insertionSort (· ≤ ·)

/-- The four numeric columns of a loaded row. -/
def numericColumns : List String := ["temperature", "precipitation", "humidity", "month"]

/-- The numeric value a loaded row holds for a numeric column. -/
def numVal (r : Record) (column : String) : ℚ :=
  if column = "temperature" then r.temperature
  else if column = "precipitation" then r.precipitation
  else if column = "humidity" then r.humidity
  else if column = "month" then (r.month : ℚ)
  else 0

/-- All values of a numeric column, in table order. -/
def columnValues (data : List Record) (column : String) : List ℚ :=
  data.map (fun r => numVal r column)

/-- Sum of squared deviations from the mean — the correlation denominator
term; zero exactly when the column is constant. -/
def ssd (l : List ℚ) : ℚ := (l.map (fun x => (x - listMean l) ^ 2)).sum

/-- The value `seasonal_analysis` stores for one season: the rounded mean of
the matching values, or 0.0 when the season matched no row. -/
def seasonValue (data : List Record) (city column : String) (months : List ℤ) : ℚ :=
  let svals := columnValues (data.filter (fun r => r.city == city && months.contains r.month)) column
  if svals.isEmpty then 0 else pyRound 2 (listMean svals)

/-- A concrete test record (the date string is irrelevant to the queries). -/
def mkRecord (city : String) (month : ℤ) (temperature precipitation humidity : ℚ)
    (cond : String) : Record :=
  { city := city, date := "2024-01-01", temperature := temperature,
    precipitation := precipitation, humidity := humidity,
    weather_condition := cond, month := month }

/-- Three Tokyo winter rows with temperatures 1, 1, 2. -/
def tableTokyo : List Record :=
  [mkRecord "東京" 1 1 0 50 "晴れ", mkRecord "東京" 1 1 0 60 "雨",
   mkRecord "東京" 2 2 0 70 "曇り"]

/-- A table whose temperature column is constant. -/
def tableConst : List Record :=
  [mkRecord "東京" 1 5 0 40 "晴れ", mkRecord "東京" 2 5 0 50 "雨",
   mkRecord "東京" 3 5 0 60 "曇り"]

/-- A table with two non-constant columns — temperature [1,2,3] and humidity
[1,3,1] — whose correlation numerator is 0, and with three distinct weather
conditions for one city. -/
def tableZeroCorr : List Record :=
  [mkRecord "東京" 1 1 0 1 "晴れ", mkRecord "東京" 2 2 0 3 "雨",
   mkRecord "東京" 3 3 0 1 "曇り"]

/-- Rows whose cities first appear in the non-alphabetical order b, a. -/
def tableBA : List Record :=
  [mkRecord "b" 1 1 0 50 "晴れ", mkRecord "a" 2 2 0 60 "雨"]

/-! ### Helper lemmas -/

theorem pyRound_zero {α : Type} [LinearOrderedField α] [FloorRing α] (n : ℕ) :
    pyRound n (0 : α) = 0 := by
  norm_num [pyRound, roundHE]

theorem mapM_option_eq_map {α β : Type} (f : α → Option β) (g : α → β) :
    ∀ l : List α, (∀ x ∈ l, f x = some (g x)) → l.mapM f = some (l.map g) := by
  intro l
  induction l with
  | nil => intro _; rfl
  | cons x xs ih =>
    intro h
    rw [List.mapM_cons, h x (by simp), ih (fun y hy => h y (by simp [hy]))]
    rfl

theorem mapM_option_none_head {α β : Type} (f : α → Option β) (x : α) (xs : List α)
    (h : f x = none) : (x :: xs).mapM f = none := by
  rw [List.mapM_cons, h]
  rfl

theorem mapM_option_length {α β : Type} (f : α → Option β) :
    ∀ (l : List α) (l' : List β), l.mapM f = some l' → l'.length = l.length := by
  intro l
  induction l with
  | nil =>
    intro l' h
    simp only [List.mapM_nil, pure, Option.some.injEq] at h
    simp [← h]
  | cons x xs ih =>
    intro l' h
    rw [List.mapM_cons] at h
    cases hf : f x with
    | none => rw [hf] at h; simp at h
    | some b =>
      rw [hf] at h
      cases hm : xs.mapM f with
      | none => rw [hm] at h; simp at h
      | some bs =>
        rw [hm] at h
        simp only [Option.bind_eq_bind, Option.some_bind, pure, Option.some.injEq] at h
        subst h
        simp [ih bs hm]

theorem mapM_except_eq_map {ε α β : Type} (f : α → Except ε β) (g : α → β) :
    ∀ l : List α, (∀ x ∈ l, f x = .ok (g x)) → l.mapM f = .ok (l.map g) := by
  intro l
  induction l with
  | nil => intro _; rfl
  | cons x xs ih =>
    intro h
    rw [List.mapM_cons, h x (by simp), ih (fun y hy => h y (by simp [hy]))]
    rfl

/-- The seven keys of a loaded row dictionary. -/
def allColumns : List String :=
  ["city", "date", "temperature", "precipitation", "humidity", "weather_condition", "month"]

theorem getValue_of_not_mem (r : Record) (column : String) (h : column ∉ allColumns) :
    getValue r column = none := by
  simp only [allColumns, List.mem_cons, List.not_mem_nil, or_false, not_or] at h
  obtain ⟨h1, h2, h3, h4, h5, h6, h7⟩ := h
  simp [getValue, h1, h2, h3, h4, h5, h6, h7]

theorem getValue_numeric (r : Record) (column : String) (h : column ∈ numericColumns) :
    getValue r column = some (.num (numVal r column)) := by
  fin_cases h <;> simp [getValue, numVal]

theorem extract_numeric (column : String) (h : column ∈ numericColumns) (l : List Record) :
    l.mapM (fun r => getValue r column) = some (l.map (fun r => PyValue.num (numVal r column))) :=
  mapM_option_eq_map _ _ l (fun x _ => getValue_numeric x column h)

theorem mapM_id_getValue_numeric (column : String) (h : column ∈ numericColumns)
    (l : List Record) :
    ((l.map (fun r => getValue r column)).mapM id) =
      some (l.map (fun r => PyValue.num (numVal r column))) := by
  induction l with
  | nil => rfl
  | cons x xs ih =>
    rw [List.map_cons, List.mapM_cons, getValue_numeric x column h]
    simp only [id_eq, Option.bind_eq_bind, Option.some_bind, ih]
    rfl

theorem mapM_toNum_map_num {γ : Type} (g : γ → ℚ) (l : List γ) :
    (l.map (fun x => PyValue.num (g x))).mapM PyValue.toNum = some (l.map g) := by
  induction l with
  | nil => rfl
  | cons x xs ih =>
    rw [List.map_cons, List.mapM_cons]
    simp only [PyValue.toNum, Option.bind_eq_bind, Option.some_bind, ih]
    rfl

theorem get_basic_stats_empty (column : String) :
    get_basic_stats [] column = .error .statisticsError := by
  rfl

theorem get_basic_stats_unknown (data : List Record) (column : String)
    (h : column ∉ allColumns) (hne : data ≠ []) :
    get_basic_stats data column = .error .keyError := by
  cases data with
  | nil => exact absurd rfl hne
  | cons r rs =>
    unfold get_basic_stats
    rw [mapM_option_none_head (fun r => getValue r column) r rs (getValue_of_not_mem r column h)]

theorem get_basic_stats_numeric (data : List Record) (column : String)
    (h : column ∈ numericColumns) (hne : data ≠ []) :
    get_basic_stats data column = .ok
      { mean := pyRound 2 (listMean (columnValues data column))
        median := pyRound 2 (listMedian (columnValues data column))
        max := pyRound 2 (listMax (columnValues data column))
        min := pyRound 2 (listMin (columnValues data column))
        stdev := pyRound 2 (if 1 < data.length then Real.sqrt ((sampleVar (columnValues data column) : ℚ) : ℝ) else 0)
        variance := pyRound 2 (if 1 < data.length then sampleVar (columnValues data column) else 0) } := by
  unfold get_basic_stats
  rw [extract_numeric column h data]
  have hE : (data.map (fun r => PyValue.num (numVal r column))).isEmpty = false := by
    cases data with
    | nil => exact absurd rfl hne
    | cons a l => rfl
  simp only [hE, Bool.false_eq_true, if_false]
  rw [mapM_toNum_map_num]
  simp [columnValues]

theorem seasonal_analysis_numeric (data : List Record) (city column : String)
    (h : column ∈ numericColumns) :
    seasonal_analysis data city column = .ok (seasons.map (fun sm =>
      let svals := columnValues (data.filter (fun r => r.city == city && sm.2.contains r.month)) column
      (sm.1, if svals.isEmpty then (0 : ℚ) else pyRound 2 (listMean svals)))) := by
  unfold seasonal_analysis
  apply mapM_except_eq_map
  intro sm _
  rw [mapM_id_getValue_numeric column h]
  cases hL : data.filter (fun r => r.city == city && sm.2.contains r.month) with
  | nil => rfl
  | cons a l =>
    simp only [mapM_toNum_map_num]
    simp [columnValues]

theorem compare_cities_numeric (data : List Record) (column : String)
    (h : column ∈ numericColumns) :
    compare_cities data column = .ok ((firstSeen (data.map (fun r => r.city))).map (fun city =>
      let nums := columnValues (data.filter (fun r => r.city == city)) column
      (city, { mean := pyRound 2 (listMean nums)
               max := pyRound 2 (listMax nums)
               min := pyRound 2 (listMin nums)
               stdev := pyRound 2 (if 1 < nums.length then Real.sqrt ((sampleVar nums : ℚ) : ℝ) else 0) }))) := by
  unfold compare_cities
  apply mapM_except_eq_map
  intro city _
  rw [mapM_id_getValue_numeric column h]
  simp only [mapM_toNum_map_num]
  simp [columnValues]

theorem calculate_correlation_numeric (data : List Record) (c1 c2 : String)
    (h1 : c1 ∈ numericColumns) (h2 : c2 ∈ numericColumns) (hne : data ≠ []) :
    calculate_correlation data c1 c2 =
      (let nums1 := columnValues data c1
       let nums2 := columnValues data c2
       let mean1 := listMean nums1
       let mean2 := listMean nums2
       let numerator := ((nums1.zip nums2).map (fun p => (p.1 - mean1) * (p.2 - mean2))).sum
       let d1 := (nums1.map (fun x => (x - mean1) ^ 2)).sum
       let d2 := (nums2.map (fun y => (y - mean2) ^ 2)).sum
       if d1 = 0 ∨ d2 = 0 then .ok 0
       else .ok ((numerator : ℝ) / Real.sqrt (((d1 * d2 : ℚ) : ℝ)))) := by
  unfold calculate_correlation
  rw [extract_numeric c1 h1, extract_numeric c2 h2]
  have hE1 : (data.map (fun r => PyValue.num (numVal r c1))).isEmpty = false := by
    simp [List.isEmpty_iff, hne]
  have hE2 : (data.map (fun r => PyValue.num (numVal r c2))).isEmpty = false := by
    simp [List.isEmpty_iff, hne]
  simp only [hE1, hE2, Bool.false_eq_true, if_false]
  simp only [mapM_toNum_map_num]
  simp [columnValues]

theorem mem_firstSeen (l : List String) (w : String) : w ∈ firstSeen l ↔ w ∈ l := by
  match l with
  | [] => simp [firstSeen]
  | x :: xs =>
    have ih := mem_firstSeen (xs.filter (fun y => decide (y ≠ x))) w
    rw [firstSeen]
    simp only [List.mem_cons, ih, List.mem_filter, decide_eq_true_eq]
    constructor
    · rintro (rfl | ⟨hw, _⟩)
      · exact Or.inl rfl
      · exact Or.inr hw
    · rintro (rfl | hw)
      · exact Or.inl rfl
      · by_cases hwx : w = x
        · exact Or.inl hwx
        · exact Or.inr ⟨hw, hwx⟩
termination_by l.length
decreasing_by
  simp only [List.length_cons]
  exact Nat.lt_succ_of_le (List.length_filter_le _ _)

theorem nodup_firstSeen (l : List String) : (firstSeen l).Nodup := by
  match l with
  | [] => simp [firstSeen]
  | x :: xs =>
    have ih := nodup_firstSeen (xs.filter (fun y => decide (y ≠ x)))
    rw [firstSeen]
    refine List.nodup_cons.mpr ⟨?_, ih⟩
    intro hx
    have := (mem_firstSeen _ _).mp hx
    simp at this
termination_by l.length
decreasing_by
  simp only [List.length_cons]
  exact Nat.lt_succ_of_le (List.length_filter_le _ _)

theorem firstSeen_head? (l : List String) : (firstSeen l).head? = l.head? := by
  cases l with
  | nil => rw [firstSeen]
  | cons x xs => rw [firstSeen]; rfl

theorem firstSeen_counts_sum (l : List String) :
    ((firstSeen l).map (fun w => (l.filter (fun x => x == w)).length)).sum = l.length := by
  match l with
  | [] => simp [firstSeen]
  | x :: xs =>
    have ih := firstSeen_counts_sum (xs.filter (fun y => decide (y ≠ x)))
    rw [firstSeen, List.map_cons, List.sum_cons]
    have hx : ((x :: xs).filter (fun a => a == x)).length
        = 1 + (xs.filter (fun a => a == x)).length := by
      rw [List.filter_cons]
      simp [Nat.add_comm]
    have hcong : ∀ w ∈ firstSeen (xs.filter (fun y => decide (y ≠ x))),
        ((x :: xs).filter (fun a => a == w)).length
          = ((xs.filter (fun y => decide (y ≠ x))).filter (fun a => a == w)).length := by
      intro w hw
      have hwmem : w ∈ xs.filter (fun y => decide (y ≠ x)) := (mem_firstSeen _ _).mp hw
      have hwx : w ≠ x := by
        have := List.mem_filter.mp hwmem
        simpa using this.2
      rw [List.filter_cons]
      have hbx : (x == w) = false := by
        simp only [beq_eq_false_iff_ne, ne_eq]
        exact fun hh => hwx hh.symm
      rw [hbx]
      simp only [Bool.false_eq_true, if_false]
      rw [List.filter_filter]
      congr 1
      apply List.filter_congr
      intro a _
      by_cases ha : a = w
      · subst ha
        simp [hwx]
      · simp [ha]
    rw [List.map_congr_left hcong, ih]
    have hsplit : ∀ ys : List String, ys.length = (ys.filter (fun a => a == x)).length
        + (ys.filter (fun y => decide (y ≠ x))).length := by
      intro ys
      induction ys with
      | nil => rfl
      | cons b bs ihb =>
        by_cases hb : b = x <;> simp [List.filter_cons, hb, ihb] <;> omega
    simp only [List.length_cons, hx, hsplit xs]
    omega
termination_by l.length
decreasing_by
  simp only [List.length_cons]
  exact Nat.lt_succ_of_le (List.length_filter_le _ _)

theorem foldl_max_mem (xs : List ℚ) : ∀ x : ℚ, xs.foldl max x ∈ x :: xs := by
  induction xs with
  | nil => intro x; simp
  | cons a l ih =>
    intro x
    rw [List.foldl_cons]
    rcases List.mem_cons.mp (ih (max x a)) with h | h
    · rw [h]
      rcases max_choice x a with hm | hm <;> rw [hm] <;> simp
    · simp [h]

theorem le_foldl_max (xs : List ℚ) : ∀ x : ℚ, ∀ y ∈ x :: xs, y ≤ xs.foldl max x := by
  induction xs with
  | nil =>
    intro x y hy
    simp at hy
    simp [hy]
  | cons a l ih =>
    intro x y hy
    rw [List.foldl_cons]
    rcases List.mem_cons.mp hy with rfl | hy'
    · exact le_trans (le_max_left y a) (ih (max y a) _ (List.mem_cons_self _ _))
    · rcases List.mem_cons.mp hy' with rfl | hy''
      · exact le_trans (le_max_right x y) (ih (max x y) _ (List.mem_cons_self _ _))
      · exact ih (max x a) y (List.mem_cons_of_mem _ hy'')

theorem foldl_min_mem (xs : List ℚ) : ∀ x : ℚ, xs.foldl min x ∈ x :: xs := by
  induction xs with
  | nil => intro x; simp
  | cons a l ih =>
    intro x
    rw [List.foldl_cons]
    rcases List.mem_cons.mp (ih (min x a)) with h | h
    · rw [h]
      rcases min_choice x a with hm | hm <;> rw [hm] <;> simp
    · simp [h]

theorem foldl_min_le (xs : List ℚ) : ∀ x : ℚ, ∀ y ∈ x :: xs, xs.foldl min x ≤ y := by
  induction xs with
  | nil =>
    intro x y hy
    simp at hy
    simp [hy]
  | cons a l ih =>
    intro x y hy
    rw [List.foldl_cons]
    rcases List.mem_cons.mp hy with rfl | hy'
    · exact le_trans (ih (min y a) _ (List.mem_cons_self _ _)) (min_le_left y a)
    · rcases List.mem_cons.mp hy' with rfl | hy''
      · exact le_trans (ih (min x y) _ (List.mem_cons_self _ _)) (min_le_right x y)
      · exact ih (min x a) y (List.mem_cons_of_mem _ hy'')

theorem listMax_spec (l : List ℚ) (h : l ≠ []) :
    listMax l ∈ l ∧ ∀ x ∈ l, x ≤ listMax l := by
  cases l with
  | nil => exact absurd rfl h
  | cons a xs =>
    refine ⟨foldl_max_mem xs a, fun x hx => le_foldl_max xs a x hx⟩

theorem listMin_spec (l : List ℚ) (h : l ≠ []) :
    listMin l ∈ l ∧ ∀ x ∈ l, listMin l ≤ x := by
  cases l with
  | nil => exact absurd rfl h
  | cons a xs =>
    refine ⟨foldl_min_mem xs a, fun x hx => foldl_min_le xs a x hx⟩

theorem head?_filter_eq_find? {α : Type} (p : α → Bool) (l : List α) :
    (l.filter p).head? = l.find? p := by
  induction l with
  | nil => rfl
  | cons x xs ih =>
    by_cases h : p x <;> simp [List.filter_cons, List.find?_cons, h, ih]

theorem sum_map_div {α : Type} (l : List α) (f : α → ℚ) (T : ℚ) :
    (l.map (fun x => f x / T)).sum = (l.map f).sum / T := by
  induction l with
  | nil => simp
  | cons x xs ih => simp [ih, add_div]

theorem map_fst_pair {α β : Type} (f : α → β) (l : List α) :
    (l.map (fun c => (c, f c))).map Prod.fst = l := by
  rw [List.map_map]
  have hfun : (Prod.fst ∘ fun c => (c, f c)) = fun c => c := by
    funext c
    rfl
  rw [hfun, List.map_id']

theorem seasonal_analysis_seasonValue (data : List Record) (city column : String)
    (h : column ∈ numericColumns) :
    seasonal_analysis data city column = .ok
      [("春", seasonValue data city column [3, 4, 5]),
       ("夏", seasonValue data city column [6, 7, 8]),
       ("秋", seasonValue data city column [9, 10, 11]),
       ("冬", seasonValue data city column [12, 1, 2])] := by
  rw [seasonal_analysis_numeric data city column h]
  simp [seasons, seasonValue]

theorem calculate_correlation_isOk (data : List Record) (c1 c2 : String)
    (h1 : c1 ∈ numericColumns) (h2 : c2 ∈ numericColumns) (hne : data ≠ []) :
    ∃ r, calculate_correlation data c1 c2 = .ok r := by
  rw [calculate_correlation_numeric data c1 c2 h1 h2 hne]
  dsimp only
  split
  · exact ⟨0, rfl⟩
  · exact ⟨_, rfl⟩

/-! ### Claim theorems -/

/-- C5 (amended): `get_basic_stats` fails with the untyped Python `KeyError`
when the column is absent and the table non-empty, and with
`statistics.StatisticsError` when the table has zero rows (this empty-data
error wins even when the column is also unknown); the table itself is a
plain immutable value, and after any failed call every valid query on the
same table still succeeds. -/
theorem basic_stats_error_behaviour (data : List Record) (column : String) :
    (column ∉ allColumns → data ≠ [] → get_basic_stats data column = .error .keyError)
    ∧ (data = [] → get_basic_stats data column = .error .statisticsError)
    ∧ (∀ column2, column2 ∈ numericColumns → data ≠ [] →
        ∃ s, get_basic_stats data column2 = .ok s) := by
  refine ⟨fun h hne => get_basic_stats_unknown data column h hne,
          fun he => ?_,
          fun c2 h2 hne => ⟨_, get_basic_stats_numeric data c2 h2 hne⟩⟩
  rw [he]
  exact get_basic_stats_empty column

/-- C5 counterexample: on the empty table with an unknown column the code
raises the empty-data error (`StatisticsError`), not the unknown-column
error the claim requires, and neither error is a dedicated
`UnknownColumn`/`EmptyTable` type. -/
theorem basic_stats_error_behaviour_cex :
    ("nonexistent" ∉ allColumns)
    ∧ get_basic_stats ([] : List Record) "nonexistent" = .error .statisticsError
    ∧ (Except.error PyError.statisticsError : Except PyError BasicStats)
        ≠ .error .keyError := by
  refine ⟨by decide, get_basic_stats_empty _, ?_⟩
  simp

/-- C5 witness: concrete failing and succeeding calls on the same table. -/
theorem basic_stats_error_behaviour_witness :
    get_basic_stats tableTokyo "bogus" = .error .keyError
    ∧ ∃ s, get_basic_stats tableTokyo "temperature" = .ok s := by
  have h := basic_stats_error_behaviour tableTokyo "bogus"
  exact ⟨h.1 (by decide) (by simp [tableTokyo]),
         h.2.2 "temperature" (by decide) (by simp [tableTokyo])⟩

/-- C6 (amended): the strength label of `_interpret_correlation` is decided
by a cascade of strict `>` tests, so it is not a function of `|r|` at the
boundaries: "strong" iff `r > 0.7` or `r ≤ −0.7`; "moderate" iff
`0.3 < r ≤ 0.7` or `−0.7 < r ≤ −0.3`; "weak" iff `−0.3 < r ≤ 0.3`.  In
particular `r = 0.3` is weak but `r = −0.3` is moderate, and `r = 0.7` is
moderate but `r = −0.7` is strong. -/
theorem interpret_correlation_strength (r : ℝ) :
    (strengthOf (interpret_correlation r) = "strong" ↔ (7 / 10 < r ∨ r ≤ -(7 / 10)))
    ∧ (strengthOf (interpret_correlation r) = "moderate"
        ↔ ((3 / 10 < r ∧ r ≤ 7 / 10) ∨ (-(7 / 10) < r ∧ r ≤ -(3 / 10))))
    ∧ (strengthOf (interpret_correlation r) = "weak"
        ↔ (-(3 / 10) < r ∧ r ≤ 3 / 10)) := by
  by_cases h1 : (7 : ℝ) / 10 < r
  · rw [interpret_correlation, if_pos h1]
    refine ⟨⟨fun _ => Or.inl h1, fun _ => by decide⟩,
            ⟨fun hh => absurd hh (by decide),
             fun hh => by rcases hh with ⟨_, h⟩ | ⟨_, h⟩ <;> linarith⟩,
            ⟨fun hh => absurd hh (by decide),
             fun hh => by obtain ⟨_, h⟩ := hh; linarith⟩⟩
  · push_neg at h1
    by_cases h2 : (3 : ℝ) / 10 < r
    · rw [interpret_correlation, if_neg (by linarith), if_pos h2]
      refine ⟨⟨fun hh => absurd hh (by decide),
               fun hh => by rcases hh with h | h <;> linarith⟩,
              ⟨fun _ => Or.inl ⟨h2, h1⟩, fun _ => by decide⟩,
              ⟨fun hh => absurd hh (by decide),
               fun hh => by obtain ⟨_, h⟩ := hh; linarith⟩⟩
    · push_neg at h2
      by_cases h3 : -((3 : ℝ) / 10) < r
      · rw [interpret_correlation, if_neg (by linarith), if_neg (by linarith), if_pos h3]
        refine ⟨⟨fun hh => absurd hh (by decide),
                 fun hh => by rcases hh with h | h <;> linarith⟩,
                ⟨fun hh => absurd hh (by decide),
                 fun hh => by rcases hh with ⟨h, _⟩ | ⟨_, h⟩ <;> linarith⟩,
                ⟨fun _ => ⟨h3, h2⟩, fun _ => by decide⟩⟩
      · push_neg at h3
        by_cases h4 : -((7 : ℝ) / 10) < r
        · rw [interpret_correlation, if_neg (by linarith), if_neg (by linarith),
              if_neg (by linarith), if_pos h4]
          refine ⟨⟨fun hh => absurd hh (by decide),
                   fun hh => by rcases hh with h | h <;> linarith⟩,
                  ⟨fun _ => Or.inr ⟨h4, h3⟩, fun _ => by decide⟩,
                  ⟨fun hh => absurd hh (by decide),
                   fun hh => by obtain ⟨h, _⟩ := hh; linarith⟩⟩
        · push_neg at h4
          rw [interpret_correlation, if_neg (by linarith), if_neg (by linarith),
              if_neg (by linarith), if_neg (by linarith)]
          refine ⟨⟨fun _ => Or.inr (by linarith), fun _ => by decide⟩,
                  ⟨fun hh => absurd hh (by decide),
                   fun hh => by rcases hh with ⟨h, _⟩ | ⟨h, _⟩ <;> linarith⟩,
                  ⟨fun hh => absurd hh (by decide),
                   fun hh => by obtain ⟨h, _⟩ := hh; linarith⟩⟩

/-- C6 counterexample: `r = −0.3` and `r = 0.3` have the same absolute value
but get different strength labels (moderate vs weak), so the label is not
determined by `|r|` alone and is not negation-invariant; `|r| = 0.3` is not
always "weak". -/
theorem interpret_correlation_strength_cex :
    strengthOf (interpret_correlation (-(3 / 10) : ℝ)) = "moderate"
    ∧ strengthOf (interpret_correlation ((3 : ℝ) / 10)) = "weak"
    ∧ |(-(3 / 10) : ℝ)| = |((3 : ℝ) / 10)|
    ∧ ("moderate" : String) ≠ "weak" := by
  refine ⟨?_, ?_, by norm_num, by decide⟩
  · rw [interpret_correlation, if_neg (by norm_num), if_neg (by norm_num),
        if_neg (by norm_num), if_pos (by norm_num)]
    decide
  · rw [interpret_correlation, if_neg (by norm_num), if_neg (by norm_num),
        if_pos (by norm_num)]
    decide

/-- C9 (amended): when no record matches `(city, month)`,
`generate_story_data` returns the "data not found" message string — an
ordinary return value, not a typed error; otherwise it uses the first record
in table order matching `(city, month)`, reports
`round(temperature − city mean temperature, 1)` as the deviation, and labels
the month notably warm iff the unrounded deviation exceeds +5, notably cold
iff it is below −5, and near-average otherwise. -/
theorem generate_story_data_behaviour (data : List Record) (city : String) (month : ℤ) :
    (data.find? (fun r => r.city == city && r.month == month) = none →
       generate_story_data data city month
         = .notFound (city ++ "の" ++ toString month ++ "月のデータが見つかりません。"))
    ∧ (∀ r, data.find? (fun r => r.city == city && r.month == month) = some r →
        generate_story_data data city month = .story
          { temperature := r.temperature
            precipitation := r.precipitation
            humidity := r.humidity
            weather_condition := r.weather_condition
            deviation := pyRound 1 (r.temperature
              - listMean ((data.filter (fun r => r.city == city)).map (fun r => r.temperature)))
            monthlyFeature := analyze_monthly_feature city month r.temperature
              (listMean ((data.filter (fun r => r.city == city)).map (fun r => r.temperature))) })
    ∧ (∀ temp avg : ℚ,
        (analyze_monthly_feature city month temp avg = "年間で特に暖かい月" ↔ temp - avg > 5)
        ∧ (analyze_monthly_feature city month temp avg = "年間で特に寒い月" ↔ temp - avg < -5)
        ∧ (analyze_monthly_feature city month temp avg = "年間平均に近い気温の月"
            ↔ (-5 ≤ temp - avg ∧ temp - avg ≤ 5))) := by
  have hfind := head?_filter_eq_find? (fun r => r.city == city && r.month == month) data
  refine ⟨?_, ?_, ?_⟩
  · intro hnone
    rw [← hfind] at hnone
    rw [generate_story_data]
    cases hc : data.filter (fun r => r.city == city && r.month == month) with
    | nil => rfl
    | cons a l => rw [hc] at hnone; simp at hnone
  · intro r hr
    rw [← hfind] at hr
    rw [generate_story_data]
    cases hc : data.filter (fun r => r.city == city && r.month == month) with
    | nil => rw [hc] at hr; simp at hr
    | cons a l =>
      rw [hc] at hr
      simp only [List.head?_cons, Option.some.injEq] at hr
      subst hr
      rfl
  · intro temp avg
    rw [analyze_monthly_feature]
    by_cases hw : temp > avg + 5
    · rw [if_pos hw]
      refine ⟨⟨fun _ => by linarith, fun _ => rfl⟩,
              ⟨fun hh => absurd hh (by decide), fun hh => by linarith⟩,
              ⟨fun hh => absurd hh (by decide), fun hh => by obtain ⟨_, h⟩ := hh; linarith⟩⟩
    · push_neg at hw
      by_cases hc : temp < avg - 5
      · rw [if_neg (by linarith), if_pos hc]
        refine ⟨⟨fun hh => absurd hh (by decide), fun hh => by linarith⟩,
                ⟨fun _ => by linarith, fun _ => rfl⟩,
                ⟨fun hh => absurd hh (by decide), fun hh => by obtain ⟨h, _⟩ := hh; linarith⟩⟩
      · push_neg at hc
        rw [if_neg (by linarith), if_neg (by linarith)]
        refine ⟨⟨fun hh => absurd hh (by decide), fun hh => by linarith⟩,
                ⟨fun hh => absurd hh (by decide), fun hh => by linarith⟩,
                ⟨fun _ => ⟨by linarith, by linarith⟩, fun _ => rfl⟩⟩

/-- C9 counterexample: with no record for (東京, month 13) the code returns
the not-found message string as a normal `StoryData` value — it does not
fail with a typed `NoMatchingRecord` error. -/
theorem generate_story_data_cex :
    generate_story_data tableTokyo "東京" 13
      = .notFound "東京の13月のデータが見つかりません。" := by
  decide

/-- C9 witness: a concrete matching lookup and the story it produces. -/
theorem generate_story_data_witness :
    tableTokyo.find? (fun r => r.city == "東京" && r.month == 1)
        = some (mkRecord "東京" 1 1 0 50 "晴れ")
    ∧ ∃ st, generate_story_data tableTokyo "東京" 1 = .story st := by
  have hf : tableTokyo.find? (fun r => r.city == "東京" && r.month == 1)
      = some (mkRecord "東京" 1 1 0 50 "晴れ") := by decide
  exact ⟨hf, ⟨_, (generate_story_data_behaviour tableTokyo "東京" 1).2.1 _ hf⟩⟩

theorem zip_sub_mul_sum_comm (A B : List ℚ) (a b : ℚ) :
    ((A.zip B).map (fun p => (p.1 - a) * (p.2 - b))).sum
      = ((B.zip A).map (fun p => (p.1 - b) * (p.2 - a))).sum := by
  rw [← List.zip_swap A B, List.map_map]
  refine congrArg List.sum (List.map_congr_left ?_)
  intro p _
  simp only [Function.comp_apply, Prod.fst_swap, Prod.snd_swap]
  ring

theorem calculate_correlation_nil (c1 c2 : String) :
    calculate_correlation [] c1 c2 = .error .statisticsError := by
  rfl

/-- C1 (amended): when either sum-of-squares term of the Pearson denominator
is zero (a constant column), `calculate_correlation` returns the bare number
0 without failing; the result carries no degenerate flag of any kind, so a
degenerate 0 is indistinguishable from a genuine zero correlation. -/
theorem correlation_degenerate_bare_zero (data : List Record) (c1 c2 : String)
    (h1 : c1 ∈ numericColumns) (h2 : c2 ∈ numericColumns) (hne : data ≠ [])
    (hdeg : ssd (columnValues data c1) = 0 ∨ ssd (columnValues data c2) = 0) :
    calculate_correlation data c1 c2 = .ok 0 := by
  rw [calculate_correlation_numeric data c1 c2 h1 h2 hne]
  simp only [ssd] at hdeg
  simp only []
  rw [if_pos hdeg]

/-- C1 counterexample: the degenerate table (constant temperature column,
zero denominator term) and a non-degenerate table with genuinely zero
correlation produce the identical unflagged result `.ok 0` — there is no
degenerate field distinguishing them, contrary to the claim. -/
theorem correlation_degenerate_bare_zero_cex :
    calculate_correlation tableConst "temperature" "temperature" = .ok 0
    ∧ calculate_correlation tableZeroCorr "temperature" "humidity" = .ok 0
    ∧ ssd (columnValues tableConst "temperature") = 0
    ∧ ssd (columnValues tableZeroCorr "temperature") ≠ 0
    ∧ ssd (columnValues tableZeroCorr "humidity") ≠ 0 := by
  have hconst : columnValues tableConst "temperature" = [5, 5, 5] := by
    simp [columnValues, tableConst, mkRecord, numVal]
  have htemp : columnValues tableZeroCorr "temperature" = [1, 2, 3] := by
    simp [columnValues, tableZeroCorr, mkRecord, numVal]
  have hhum : columnValues tableZeroCorr "humidity" = [1, 3, 1] := by
    simp [columnValues, tableZeroCorr, mkRecord, numVal]
  have hssd1 : ssd (columnValues tableConst "temperature") = 0 := by
    rw [hconst]
    norm_num [ssd, listMean]
  have hssd2 : ssd (columnValues tableZeroCorr "temperature") = 2 := by
    rw [htemp]
    norm_num [ssd, listMean]
  have hssd3 : ssd (columnValues tableZeroCorr "humidity") = 8 / 3 := by
    rw [hhum]
    norm_num [ssd, listMean]
  refine ⟨?_, ?_, hssd1, by rw [hssd2]; norm_num, by rw [hssd3]; norm_num⟩
  · rw [calculate_correlation_numeric tableConst "temperature" "temperature"
        (by decide) (by decide) (by simp [tableConst])]
    simp only []
    rw [if_pos]
    rw [hconst]
    norm_num [listMean]
  · rw [calculate_correlation_numeric tableZeroCorr "temperature" "humidity"
        (by decide) (by decide) (by simp [tableZeroCorr])]
    simp only []
    rw [if_neg]
    · rw [htemp, hhum]
      have hz : ((([1, 2, 3] : List ℚ).zip ([1, 3, 1] : List ℚ)).map
          (fun p => (p.1 - listMean [1, 2, 3]) * (p.2 - listMean [1, 3, 1]))).sum = 0 := by
        norm_num [listMean, List.zip]
      rw [hz]
      norm_num
    · rw [htemp, hhum]
      intro hcontra
      rcases hcontra with hc | hc <;> revert hc <;> norm_num [listMean]

/-- C1 witness: the amended theorem applied to the constant-column table. -/
theorem correlation_degenerate_bare_zero_witness :
    ("temperature" ∈ numericColumns) ∧ tableConst ≠ []
    ∧ ssd (columnValues tableConst "temperature") = 0
    ∧ calculate_correlation tableConst "temperature" "temperature" = .ok 0 := by
  have hconst : columnValues tableConst "temperature" = [5, 5, 5] := by
    simp [columnValues, tableConst, mkRecord, numVal]
  have hssd : ssd (columnValues tableConst "temperature") = 0 := by
    rw [hconst]
    norm_num [ssd, listMean]
  exact ⟨by decide, by simp [tableConst], hssd,
         correlation_degenerate_bare_zero tableConst "temperature" "temperature"
           (by decide) (by decide) (by simp [tableConst]) (Or.inl hssd)⟩

/-- C8 (confirmed): `calculate_correlation` is symmetric in its two column
arguments — on every table, including all error cases, swapping the columns
gives the same result. -/
theorem correlation_symmetric (data : List Record) (column1 column2 : String) :
    calculate_correlation data column1 column2
      = calculate_correlation data column2 column1 := by
  unfold calculate_correlation
  cases hm1 : data.mapM (fun r => getValue r column1) with
  | none =>
    cases hm2 : data.mapM (fun r => getValue r column2) with
    | none => rfl
    | some v2 => rfl
  | some v1 =>
    cases hm2 : data.mapM (fun r => getValue r column2) with
    | none => rfl
    | some v2 =>
      have l1 := mapM_option_length _ data v1 hm1
      have l2 := mapM_option_length _ data v2 hm2
      dsimp only
      by_cases hE : v1.isEmpty
      · have hE2 : v2.isEmpty = true := by
          rw [List.isEmpty_iff] at hE ⊢
          rw [← List.length_eq_zero, l2, ← l1, List.length_eq_zero]
          exact hE
        rw [if_pos hE, if_pos hE2]
      · have hE2 : ¬ v2.isEmpty = true := by
          rw [List.isEmpty_iff] at hE ⊢
          rw [← List.length_eq_zero, l2, ← l1, List.length_eq_zero]
          exact hE
        rw [if_neg hE, if_neg hE2]
        cases ht1 : v1.mapM PyValue.toNum with
        | none =>
          cases ht2 : v2.mapM PyValue.toNum with
          | none => rfl
          | some n2 =>
            dsimp only
            rw [if_neg hE]
        | some n1 =>
          cases ht2 : v2.mapM PyValue.toNum with
          | none =>
            dsimp only
            rw [if_neg hE2]
          | some n2 =>
            dsimp only
            rw [if_neg hE2, if_neg hE]
            rw [zip_sub_mul_sum_comm n1 n2 (listMean n1) (listMean n2)]
            by_cases hd : ((n2.map (fun x => (x - listMean n2) ^ 2)).sum = 0
                ∨ (n1.map (fun y => (y - listMean n1) ^ 2)).sum = 0)
            · rw [if_pos (Or.symm hd), if_pos hd]
            · rw [if_neg (fun hc => hd (Or.symm hc)), if_neg hd]
              rw [mul_comm ((n1.map (fun x => (x - listMean n1) ^ 2)).sum)]

/-- C4 (amended): for a numeric column on a non-empty table,
`get_basic_stats` returns mean = sum/n, median = middle of the sorted
sequence (average of the two central values when n is even), max and min of
the values, sample variance `Σ(x−mean)²/(n−1)` for `n > 1`, and standard
deviation `sqrt(variance)` — but each value is rounded to two decimal places
before being returned; for `n = 1`, variance and stdev are exactly 0. -/
theorem basic_stats_formulas (data : List Record) (column : String)
    (h : column ∈ numericColumns) (hne : data ≠ []) :
    ∃ s, get_basic_stats data column = .ok s ∧
      (let nums := columnValues data column
       let mean := nums.sum / (nums.length : ℚ)
       let sorted := nums.insertionSort (· ≤ ·)
       s.mean = pyRound 2 mean
       ∧ s.median = pyRound 2 (if nums.length % 2 = 1 then sorted.getD (nums.length / 2) 0
            else (sorted.getD (nums.length / 2 - 1) 0 + sorted.getD (nums.length / 2) 0) / 2)
       ∧ (∃ M, M ∈ nums ∧ (∀ x ∈ nums, x ≤ M) ∧ s.max = pyRound 2 M)
       ∧ (∃ m, m ∈ nums ∧ (∀ x ∈ nums, m ≤ x) ∧ s.min = pyRound 2 m)
       ∧ (1 < nums.length →
            s.variance = pyRound 2 ((nums.map (fun x => (x - mean) ^ 2)).sum / ((nums.length : ℚ) - 1))
            ∧ s.stdev = pyRound 2 (Real.sqrt (((nums.map (fun x => (x - mean) ^ 2)).sum / ((nums.length : ℚ) - 1) : ℚ) : ℝ)))
       ∧ (nums.length = 1 → s.variance = 0 ∧ s.stdev = 0)) := by
  refine ⟨_, get_basic_stats_numeric data column h hne, ?_⟩
  have hnn : columnValues data column ≠ [] := by simp [columnValues, hne]
  have hlen : (columnValues data column).length = data.length := by simp [columnValues]
  refine ⟨rfl, rfl, ?_, ?_, ?_, ?_⟩
  · obtain ⟨hmem, hbound⟩ := listMax_spec _ hnn
    exact ⟨listMax (columnValues data column), hmem, hbound, rfl⟩
  · obtain ⟨hmem, hbound⟩ := listMin_spec _ hnn
    exact ⟨listMin (columnValues data column), hmem, hbound, rfl⟩
  · intro hgt
    have hgt' : 1 < data.length := by rw [← hlen]; exact hgt
    constructor
    · show pyRound 2 (if 1 < data.length then sampleVar (columnValues data column) else 0) = _
      rw [if_pos hgt']
      rfl
    · show pyRound 2 (if 1 < data.length
          then Real.sqrt ((sampleVar (columnValues data column) : ℚ) : ℝ) else 0) = _
      rw [if_pos hgt']
      rfl
  · intro h1
    have h1' : ¬ 1 < data.length := by rw [← hlen, h1]; omega
    constructor
    · show pyRound 2 (if 1 < data.length then sampleVar (columnValues data column) else 0) = 0
      rw [if_neg h1']
      exact pyRound_zero 2
    · show pyRound 2 (if 1 < data.length
          then Real.sqrt ((sampleVar (columnValues data column) : ℚ) : ℝ) else 0) = 0
      rw [if_neg h1']
      exact pyRound_zero 2

/-- C4 counterexample: for temperatures [1, 1, 2] the exact mean is 4/3 but
the returned mean is the rounded 1.33 — `get_basic_stats` does not return
`sum/n` itself. -/
theorem basic_stats_formulas_cex :
    (∃ s, get_basic_stats tableTokyo "temperature" = .ok s ∧ s.mean = 133 / 100)
    ∧ listMean (columnValues tableTokyo "temperature") = 4 / 3
    ∧ (133 / 100 : ℚ) ≠ 4 / 3 := by
  have hcv : columnValues tableTokyo "temperature" = [1, 1, 2] := by
    simp [columnValues, tableTokyo, mkRecord, numVal]
  have hmean : listMean (columnValues tableTokyo "temperature") = 4 / 3 := by
    rw [hcv]
    norm_num [listMean]
  refine ⟨⟨_, get_basic_stats_numeric tableTokyo "temperature" (by decide)
      (by simp [tableTokyo]), ?_⟩, hmean, by norm_num⟩
  show pyRound 2 (listMean (columnValues tableTokyo "temperature")) = 133 / 100
  rw [hmean]
  norm_num [pyRound, roundHE]

/-- C4 witness: the amended theorem applied to a concrete table. -/
theorem basic_stats_formulas_witness :
    ("temperature" ∈ numericColumns) ∧ tableTokyo ≠ []
    ∧ ∃ s, get_basic_stats tableTokyo "temperature" = .ok s := by
  refine ⟨by decide, by simp [tableTokyo], ?_⟩
  obtain ⟨s, hs, _⟩ := basic_stats_formulas tableTokyo "temperature" (by decide)
    (by simp [tableTokyo])
  exact ⟨s, hs⟩

/-- C2 (amended): for every city and numeric column, `seasonal_analysis`
returns exactly the four season keys 春/夏/秋/冬 in that order with the
fixed month grouping spring [3,4,5], summer [6,7,8], autumn [9,10,11],
winter [12,1,2]; a season's value is the mean of the matching values rounded
to two decimal places, and a season with zero matching records maps to
exactly 0.0 (present in the output, not an error). -/
theorem seasonal_averages_rounded (data : List Record) (city column : String)
    (h : column ∈ numericColumns) :
    seasonal_analysis data city column = .ok
      [("春", seasonValue data city column [3, 4, 5]),
       ("夏", seasonValue data city column [6, 7, 8]),
       ("秋", seasonValue data city column [9, 10, 11]),
       ("冬", seasonValue data city column [12, 1, 2])]
    ∧ ∀ months : List ℤ,
        (let svals := columnValues
          (data.filter (fun r => r.city == city && months.contains r.month)) column
         (svals = [] → seasonValue data city column months = 0)
         ∧ (svals ≠ [] → seasonValue data city column months = pyRound 2 (listMean svals))) := by
  refine ⟨seasonal_analysis_seasonValue data city column h, ?_⟩
  intro months
  constructor
  · intro hempty
    rw [seasonValue]
    simp only [List.isEmpty_iff]
    rw [if_pos hempty]
  · intro hne
    rw [seasonValue]
    simp only [List.isEmpty_iff]
    rw [if_neg hne]

/-- C2 counterexample: with winter temperatures [1, 1, 2] the winter entry is
the rounded 1.33, not the exact mean 4/3 — the season value is not the mean
itself. -/
theorem seasonal_averages_rounded_cex :
    seasonal_analysis tableTokyo "東京" "temperature"
      = .ok [("春", 0), ("夏", 0), ("秋", 0), ("冬", 133 / 100)]
    ∧ listMean (columnValues (tableTokyo.filter
        (fun r => r.city == "東京" && ([12, 1, 2] : List ℤ).contains r.month)) "temperature")
      = 4 / 3
    ∧ (133 / 100 : ℚ) ≠ 4 / 3 := by
  have h1 : tableTokyo.filter
      (fun r => r.city == "東京" && ([3, 4, 5] : List ℤ).contains r.month) = [] := by decide
  have h2 : tableTokyo.filter
      (fun r => r.city == "東京" && ([6, 7, 8] : List ℤ).contains r.month) = [] := by decide
  have h3 : tableTokyo.filter
      (fun r => r.city == "東京" && ([9, 10, 11] : List ℤ).contains r.month) = [] := by decide
  have h4 : tableTokyo.filter
      (fun r => r.city == "東京" && ([12, 1, 2] : List ℤ).contains r.month) = tableTokyo := by
    decide
  have hcv : columnValues tableTokyo "temperature" = [1, 1, 2] := by
    simp [columnValues, tableTokyo, mkRecord, numVal]
  have hwinter : seasonValue tableTokyo "東京" "temperature" [12, 1, 2] = 133 / 100 := by
    rw [seasonValue, h4, hcv]
    norm_num [listMean, pyRound, roundHE]
  refine ⟨?_, ?_, by norm_num⟩
  · rw [seasonal_analysis_seasonValue tableTokyo "東京" "temperature" (by decide)]
    rw [hwinter]
    have hs1 : seasonValue tableTokyo "東京" "temperature" [3, 4, 5] = 0 := by
      rw [seasonValue, h1]; rfl
    have hs2 : seasonValue tableTokyo "東京" "temperature" [6, 7, 8] = 0 := by
      rw [seasonValue, h2]; rfl
    have hs3 : seasonValue tableTokyo "東京" "temperature" [9, 10, 11] = 0 := by
      rw [seasonValue, h3]; rfl
    rw [hs1, hs2, hs3]
  · rw [h4, hcv]
    norm_num [listMean]

/-- C2 witness: the amended theorem applied to a concrete table. -/
theorem seasonal_averages_rounded_witness :
    ("temperature" ∈ numericColumns)
    ∧ ∃ out, seasonal_analysis tableTokyo "東京" "temperature" = .ok out
        ∧ out.length = 4 := by
  refine ⟨by decide, ?_⟩
  exact ⟨_, (seasonal_averages_rounded tableTokyo "東京" "temperature" (by decide)).1, rfl⟩

/-- C7 (amended): in the dependency-free analyzer, `compare_cities` lists
its groups in first-occurrence order of the city in the input sequence (the
first group key is the first row's city; the keys are exactly the distinct
cities, without duplicates), and each group's entry holds the group's mean,
max, min, and sample standard deviation (0 for a single-record group) — each
value rounded to two decimal places.  The pandas variant instead returns its
groups sorted by key (see the counterexample). -/
theorem compare_by_group_order (data : List Record) (column : String)
    (h : column ∈ numericColumns) :
    ∃ out, compare_cities data column = .ok out
      ∧ out.map Prod.fst = firstSeen (data.map (fun r => r.city))
      ∧ (out.map Prod.fst).Nodup
      ∧ (∀ c, c ∈ out.map Prod.fst ↔ c ∈ data.map (fun r => r.city))
      ∧ (out.map Prod.fst).head? = (data.map (fun r => r.city)).head?
      ∧ ∀ p, p ∈ out →
          (let nums := columnValues (data.filter (fun r => r.city == p.1)) column
           nums ≠ []
           ∧ p.2.mean = pyRound 2 (nums.sum / (nums.length : ℚ))
           ∧ (∃ M, M ∈ nums ∧ (∀ x ∈ nums, x ≤ M) ∧ p.2.max = pyRound 2 M)
           ∧ (∃ m, m ∈ nums ∧ (∀ x ∈ nums, m ≤ x) ∧ p.2.min = pyRound 2 m)
           ∧ (nums.length = 1 → p.2.stdev = 0)
           ∧ (1 < nums.length →
                p.2.stdev = pyRound 2 (Real.sqrt ((sampleVar nums : ℚ) : ℝ)))) := by
  refine ⟨_, compare_cities_numeric data column h, ?_, ?_, ?_, ?_, ?_⟩
  · rw [map_fst_pair]
  · rw [map_fst_pair]
    exact nodup_firstSeen (data.map (fun r => r.city))
  · intro c
    rw [map_fst_pair]
    exact mem_firstSeen (data.map (fun r => r.city)) c
  · rw [map_fst_pair]
    exact firstSeen_head? (data.map (fun r => r.city))
  · intro p hp
    obtain ⟨c, hc, rfl⟩ := List.mem_map.mp hp
    have hcmem : c ∈ data.map (fun r => r.city) := (mem_firstSeen _ c).mp hc
    obtain ⟨r, hr, hrc⟩ := List.mem_map.mp hcmem
    have hrfil : r ∈ data.filter (fun r => r.city == c) :=
      List.mem_filter.mpr ⟨hr, by simp [hrc]⟩
    have hnn : columnValues (data.filter (fun r => r.city == c)) column ≠ [] := by
      have : numVal r column ∈ columnValues (data.filter (fun r => r.city == c)) column :=
        List.mem_map_of_mem _ hrfil
      exact List.ne_nil_of_mem this
    refine ⟨hnn, rfl, ?_, ?_, ?_, ?_⟩
    · obtain ⟨hmem, hbound⟩ := listMax_spec _ hnn
      exact ⟨listMax _, hmem, hbound, rfl⟩
    · obtain ⟨hmem, hbound⟩ := listMin_spec _ hnn
      exact ⟨listMin _, hmem, hbound, rfl⟩
    · intro h1
      have h1' : (columnValues (data.filter (fun r => r.city == c)) column).length = 1 := h1
      show pyRound 2 (if 1 < (columnValues (data.filter (fun r => r.city == c)) column).length
          then Real.sqrt ((sampleVar (columnValues (data.filter (fun r => r.city == c)) column) : ℚ) : ℝ)
          else 0) = 0
      rw [if_neg (by omega)]
      exact pyRound_zero 2
    · intro hgt
      have hgt' : 1 < (columnValues (data.filter (fun r => r.city == c)) column).length := hgt
      show pyRound 2 (if 1 < (columnValues (data.filter (fun r => r.city == c)) column).length
          then Real.sqrt ((sampleVar (columnValues (data.filter (fun r => r.city == c)) column) : ℚ) : ℝ)
          else 0) = _
      rw [if_pos hgt']

/-- C7 counterexample: with rows whose cities first appear in the order
b, a, the pandas analyzer's group keys come out sorted as [a, b] — not in
first-occurrence order — while the dependency-free analyzer keeps [b, a];
moreover the entries hold rounded values (mean 1.33 for values [1, 1, 2]
whose exact mean is 4/3), not the exact statistics. -/
theorem compare_by_group_order_cex :
    compare_cities_pandas_keys tableBA = ["a", "b"]
    ∧ firstSeen (tableBA.map (fun r => r.city)) = ["b", "a"]
    ∧ (["a", "b"] : List String) ≠ ["b", "a"]
    ∧ (∃ out, compare_cities tableBA "temperature" = .ok out
        ∧ out.map Prod.fst = ["b", "a"])
    ∧ (∃ out, compare_cities tableTokyo "temperature" = .ok out
        ∧ out.map (fun p => (p.1, p.2.mean)) = [("東京", 133 / 100)])
    ∧ (133 / 100 : ℚ) ≠ 4 / 3
    ∧ listMean (columnValues (tableTokyo.filter (fun r => r.city == "東京")) "temperature")
        = 4 / 3 := by
  have hba : tableBA.map (fun r => r.city) = ["b", "a"] := by
    simp [tableBA, mkRecord]
  have hfs : firstSeen (tableBA.map (fun r => r.city)) = ["b", "a"] := by
    rw [hba]
    simp [firstSeen]
  have htok : tableTokyo.map (fun r => r.city) = ["東京", "東京", "東京"] := by
    simp [tableTokyo, mkRecord]
  have hfst : firstSeen (tableTokyo.map (fun r => r.city)) = ["東京"] := by
    rw [htok]
    simp [firstSeen]
  have hfil : tableTokyo.filter (fun r => r.city == "東京") = tableTokyo := by decide
  have hcv : columnValues tableTokyo "temperature" = [1, 1, 2] := by
    simp [columnValues, tableTokyo, mkRecord, numVal]
  refine ⟨?_, hfs, by decide, ?_, ?_, by norm_num, ?_⟩
  · rw [compare_cities_pandas_keys, hfs]
    simp only [List.insertionSort, List.orderedInsert]
    norm_num
    decide
  · refine ⟨_, compare_cities_numeric tableBA "temperature" (by decide), ?_⟩
    rw [map_fst_pair]
    exact hfs
  · refine ⟨_, compare_cities_numeric tableTokyo "temperature" (by decide), ?_⟩
    rw [hfst]
    simp only [List.map_cons, List.map_nil]
    have : pyRound 2 (listMean (columnValues
        (tableTokyo.filter (fun r => r.city == "東京")) "temperature")) = 133 / 100 := by
      rw [hfil, hcv]
      norm_num [listMean, pyRound, roundHE]
    simp only [this]
  · rw [hfil, hcv]
    norm_num [listMean]

/-- C7 witness: the amended theorem applied to the b-then-a table. -/
theorem compare_by_group_order_witness :
    ("temperature" ∈ numericColumns)
    ∧ ∃ out, compare_cities tableBA "temperature" = .ok out
        ∧ out.map Prod.fst = firstSeen (tableBA.map (fun r => r.city)) := by
  refine ⟨by decide, ?_⟩
  obtain ⟨out, h1, h2, _⟩ := compare_by_group_order tableBA "temperature" (by decide)
  exact ⟨out, h1, h2⟩

/-- C10 (confirmed): every numeric scalar returned by `get_basic_stats`,
`compare_cities` and `seasonal_analysis` equals the exact closed-form value
rounded to two decimal places, and the coefficient reported by
`find_correlations` equals the exact Pearson coefficient rounded to three
decimal places. -/
theorem all_scalars_rounded (data : List Record) (column city : String)
    (h : column ∈ numericColumns) (hne : data ≠ []) :
    (∃ s, get_basic_stats data column = .ok s
       ∧ s.mean = pyRound 2 (listMean (columnValues data column))
       ∧ s.median = pyRound 2 (listMedian (columnValues data column))
       ∧ s.max = pyRound 2 (listMax (columnValues data column))
       ∧ s.min = pyRound 2 (listMin (columnValues data column))
       ∧ s.variance = pyRound 2 (if 1 < data.length then sampleVar (columnValues data column) else 0)
       ∧ s.stdev = pyRound 2 (if 1 < data.length
            then Real.sqrt ((sampleVar (columnValues data column) : ℚ) : ℝ) else 0))
    ∧ (∃ out, compare_cities data column = .ok out ∧ ∀ p ∈ out,
        (let nums := columnValues (data.filter (fun r => r.city == p.1)) column
         p.2.mean = pyRound 2 (listMean nums)
         ∧ p.2.max = pyRound 2 (listMax nums)
         ∧ p.2.min = pyRound 2 (listMin nums)
         ∧ p.2.stdev = pyRound 2 (if 1 < nums.length
              then Real.sqrt ((sampleVar nums : ℚ) : ℝ) else 0)))
    ∧ seasonal_analysis data city column = .ok
        [("春", seasonValue data city column [3, 4, 5]),
         ("夏", seasonValue data city column [6, 7, 8]),
         ("秋", seasonValue data city column [9, 10, 11]),
         ("冬", seasonValue data city column [12, 1, 2])]
    ∧ (∃ r1 r2, calculate_correlation data "temperature" "humidity" = .ok r1
        ∧ calculate_correlation data "temperature" "precipitation" = .ok r2
        ∧ find_correlations data = .ok
            [("気温と湿度", ⟨pyRound 3 r1, interpret_correlation r1⟩),
             ("気温と降水量", ⟨pyRound 3 r2, interpret_correlation r2⟩)]) := by
  refine ⟨⟨_, get_basic_stats_numeric data column h hne, rfl, rfl, rfl, rfl, rfl, rfl⟩,
          ⟨_, compare_cities_numeric data column h, ?_⟩,
          seasonal_analysis_seasonValue data city column h, ?_⟩
  · intro p hp
    obtain ⟨c, hc, rfl⟩ := List.mem_map.mp hp
    exact ⟨rfl, rfl, rfl, rfl⟩
  · obtain ⟨r1, hr1⟩ := calculate_correlation_isOk data "temperature" "humidity"
      (by decide) (by decide) hne
    obtain ⟨r2, hr2⟩ := calculate_correlation_isOk data "temperature" "precipitation"
      (by decide) (by decide) hne
    refine ⟨r1, r2, hr1, hr2, ?_⟩
    rw [find_correlations, hr1, hr2]
    rfl

/-- C10 witness: the theorem applied to a concrete table. -/
theorem all_scalars_rounded_witness :
    ("temperature" ∈ numericColumns) ∧ tableTokyo ≠ []
    ∧ (∃ s, get_basic_stats tableTokyo "temperature" = .ok s)
    ∧ (∃ out, compare_cities tableTokyo "temperature" = .ok out)
    ∧ (∃ l, find_correlations tableTokyo = .ok l) := by
  refine ⟨by decide, by simp [tableTokyo], ?_⟩
  obtain ⟨⟨s, hs, _⟩, ⟨out, hout, _⟩, _, ⟨r1, r2, _, _, hl⟩⟩ :=
    all_scalars_rounded tableTokyo "temperature" "東京" (by decide) (by simp [tableTokyo])
  exact ⟨⟨s, hs⟩, ⟨out, hout⟩, ⟨_, hl⟩⟩

/-- C3 (amended): `weather_probability` returns an empty mapping — not an
error — when zero records match the city; when at least one record matches
it returns, for each observed category in first-seen order, the pair of its
count and its proportion rounded to three decimal places, and the exact
proportions count/total over the observed categories sum to exactly 1. -/
theorem weather_probability_behaviour (data : List Record) (city : String) :
    (data.filter (fun r => r.city == city) = [] → weather_probability data city = [])
    ∧ (data.filter (fun r => r.city == city) ≠ [] →
        weather_probability data city ≠ []
        ∧ (∀ p ∈ weather_probability data city,
            p.2.count = (((data.filter (fun r => r.city == city)).map
                (fun r => r.weather_condition)).filter (fun x => x == p.1)).length
            ∧ p.2.probability = pyRound 3 ((p.2.count : ℚ)
                / (((data.filter (fun r => r.city == city)).length : ℚ))))
        ∧ ((weather_probability data city).map (fun p => ((p.2.count : ℚ)
            / (((data.filter (fun r => r.city == city)).length : ℚ))))).sum = 1) := by
  constructor
  · intro hf
    rw [weather_probability, hf]
    simp [firstSeen]
  · intro hf
    have hcwne : (data.filter (fun r => r.city == city)).map
        (fun r => r.weather_condition) ≠ [] := by
      simp [hf]
    have hlenmap : ((data.filter (fun r => r.city == city)).map
        (fun r => r.weather_condition)).length
        = (data.filter (fun r => r.city == city)).length := by
      rw [List.length_map]
    refine ⟨?_, ?_, ?_⟩
    · rw [weather_probability]
      cases hcw : (data.filter (fun r => r.city == city)).map
          (fun r => r.weather_condition) with
      | nil => exact absurd hcw hcwne
      | cons w ws =>
        rw [firstSeen]
        simp
    · intro p hp
      rw [weather_probability] at hp
      obtain ⟨w, hw, rfl⟩ := List.mem_map.mp hp
      refine ⟨rfl, ?_⟩
      show pyRound 3 (_ / (((data.filter (fun r => r.city == city)).map
          (fun r => r.weather_condition)).length : ℚ)) = _
      rw [hlenmap]
    · rw [weather_probability]
      simp only [List.map_map]
      show ((firstSeen ((data.filter (fun r => r.city == city)).map
            (fun r => r.weather_condition))).map
          (fun w => (((((data.filter (fun r => r.city == city)).map
            (fun r => r.weather_condition)).filter (fun x => x == w)).length : ℚ)
            / (((data.filter (fun r => r.city == city)).length : ℚ))))).sum = 1
      rw [sum_map_div]
      have hcast : ((firstSeen ((data.filter (fun r => r.city == city)).map
            (fun r => r.weather_condition))).map (fun w => (((((data.filter
            (fun r => r.city == city)).map (fun r => r.weather_condition)).filter
            (fun x => x == w)).length : ℕ) : ℚ))).sum
          = (((data.filter (fun r => r.city == city)).length : ℚ)) := by
        rw [show (fun w => (((((data.filter (fun r => r.city == city)).map
              (fun r => r.weather_condition)).filter (fun x => x == w)).length : ℕ) : ℚ))
            = (Nat.cast ∘ fun w => ((((data.filter (fun r => r.city == city)).map
              (fun r => r.weather_condition)).filter (fun x => x == w)).length : ℕ)) from rfl]
        rw [← List.map_map, ← Nat.cast_list_sum]
        rw [firstSeen_counts_sum ((data.filter (fun r => r.city == city)).map
            (fun r => r.weather_condition))]
        rw [hlenmap]
      rw [hcast]
      have hT : (((data.filter (fun r => r.city == city)).length : ℚ)) ≠ 0 := by
        simp [hf]
      exact div_self hT

/-- C3 counterexample: a city with no records yields the empty mapping, not
an `EmptyGroup` failure; and for three equally frequent categories the
returned (rounded) proportions sum to 0.999, not 1.0. -/
theorem weather_probability_behaviour_cex :
    weather_probability tableZeroCorr "大阪" = []
    ∧ ((weather_probability tableZeroCorr "東京").map (fun p => p.2.probability)).sum
        = 999 / 1000
    ∧ (999 / 1000 : ℚ) ≠ 1 := by
  have hosaka : tableZeroCorr.filter (fun r => r.city == "大阪") = [] := by decide
  have htokyo : tableZeroCorr.filter (fun r => r.city == "東京") = tableZeroCorr := by decide
  refine ⟨?_, ?_, by norm_num⟩
  · rw [weather_probability, hosaka]
    simp [firstSeen]
  · rw [weather_probability, htokyo]
    have hcond : tableZeroCorr.map (fun r => r.weather_condition)
        = ["晴れ", "雨", "曇り"] := by simp [tableZeroCorr, mkRecord]
    have hfs : firstSeen ["晴れ", "雨", "曇り"] = ["晴れ", "雨", "曇り"] := by
      simp [firstSeen]
    have e1 : ((["晴れ", "雨", "曇り"] : List String).filter (fun x => x == "晴れ")).length
        = 1 := by decide
    have e2 : ((["晴れ", "雨", "曇り"] : List String).filter (fun x => x == "雨")).length
        = 1 := by decide
    have e3 : ((["晴れ", "雨", "曇り"] : List String).filter (fun x => x == "曇り")).length
        = 1 := by decide
    simp only [hcond, hfs, List.map_cons, List.map_nil, List.sum_cons, List.sum_nil,
      e1, e2, e3, List.length_cons, List.length_nil]
    norm_num [pyRound, roundHE]

/-- C3 witness: the amended theorem applied to a concrete non-empty group. -/
theorem weather_probability_behaviour_witness :
    tableZeroCorr.filter (fun r => r.city == "東京") ≠ []
    ∧ weather_probability tableZeroCorr "東京" ≠ []
    ∧ ((weather_probability tableZeroCorr "東京").map (fun p => ((p.2.count : ℚ)
        / (((tableZeroCorr.filter (fun r => r.city == "東京")).length : ℚ))))).sum = 1 := by
  have hne : tableZeroCorr.filter (fun r => r.city == "東京") ≠ [] := by decide
  obtain ⟨h1, _, h3⟩ := (weather_probability_behaviour tableZeroCorr "東京").2 hne
  exact ⟨hne, h1, h3⟩

/-- C8 witness: symmetry at a concrete table and column pair. -/
theorem correlation_symmetric_witness :
    calculate_correlation tableTokyo "temperature" "humidity"
      = calculate_correlation tableTokyo "humidity" "temperature" :=
  correlation_symmetric tableTokyo "temperature" "humidity"

/-- C6 witness: the amended characterization evaluated at r = 1/2. -/
theorem interpret_correlation_strength_witness :
    strengthOf (interpret_correlation ((1 : ℝ) / 2)) = "moderate" :=
  (interpret_correlation_strength ((1 : ℝ) / 2)).2.1.mpr
    (Or.inl ⟨by norm_num, by norm_num⟩)
